import Mathlib

/-!
Shallow embedding of the MAIDENMI/EUNOIA facial-emotion monitor scripts
(`src/Backend/facialrecongization/face.py` and `face_advanced.py`) and proofs
about the sadness-scoring and temporal-aggregation logic.

Numeric conventions: Python floats are modelled as exact rationals (`ℚ`) in
the 7-class pipeline and as reals (`ℝ`) in the landmark pipeline (whose
geometry uses square roots).  Python `dict`s that are only used for counting
with insertion-order iteration are modelled as ordered association lists.
Python's `max(items, key=...)` (which keeps the first maximal item) is
modelled by `pyMaxAux`.  The CSV f-string formatting `f"{x:.2f}"` is
abstracted by the `CsvField.formatted` constructor (keeping the numeric value
and which branch of the `... if x else "N/A"` expression was taken, which is
all the claims are about).
-/

/-- A CSV cell that is either the literal string `"N/A"` or the two-decimal
rendering of the value `v` (the result of Python's `f"{v:.2f}"`). -/
inductive CsvField (α : Type) : Type
  | na : CsvField α
  | formatted (v : α) : CsvField α
deriving DecidableEq

/-- Python's `max(x :: xs, key=lambda p: p[1])`: scan left to right, replace
the current best only on a strictly greater key, so the first maximal item
wins ties. -/
def pyMaxAux {α β : Type} [LinearOrder β] (x : α × β) (xs : List (α × β)) : α × β :=
  xs.foldl (fun b y => if y.2 > b.2 then y else b) x

/-- Python's `max(l, key=lambda p: p[1])` on a possibly-empty list
(`none` models the `ValueError` on an empty sequence; all call sites in the
source are guarded by non-emptiness). -/
def pyMaxOpt {α β : Type} [LinearOrder β] : List (α × β) → Option (α × β)
  | [] => none
  | x :: xs => some (pyMaxAux x xs)

/-- Python's `s.split('_')[1]`, splitting at the underscore and taking the
second piece (every band name in the `face_advanced.py` table contains
exactly one underscore). -/
def splitUnderscoreSecond (s : String) : String :=
  ((s.toList.splitOn '_').map (fun l => String.mk l)).getD 1 ""

/-- One step of Python's `counts[k] = counts.get(k, 0) + 1` on an
insertion-ordered dict: increment in place if the key is present, otherwise
append it with count 1. -/
def bumpCount : List (String × ℕ) → String → List (String × ℕ)
  | [], k => [(k, 1)]
  | (k', c) :: rest, k =>
      if k' = k then (k', c + 1) :: rest else (k', c) :: bumpCount rest k

/-- The insertion-ordered frequency dict built by the
`for entry in ...: counts[...] = counts.get(..., 0) + 1` loops. -/
def countsOf (labels : List String) : List (String × ℕ) :=
  labels.foldl bumpCount []

namespace Face

/-- `face.py` line 34: `EMOTIONS = ['angry', ..., 'neutral']` (FER-2013 order). -/
def EMOTIONS : List String :=
  ["angry", "disgust", "fear", "happy", "sad", "surprise", "neutral"]

/-- Index into `EMOTIONS` (which has length 7). -/
def emotionAt (i : Fin 7) : String := EMOTIONS.get (Fin.cast (by rfl) i)

/-- `face.py` lines 37-41: the band table `SADNESS_LEVELS`, in insertion
order, each with its `(min_val, max_val)` range. -/
def SADNESS_LEVELS : List (String × ℚ × ℚ) :=
  [("upset", 0, 40), ("melancholic", 40, 70), ("depressed", 70, 100)]

/-- `face.py` lines 133-141: the adjusted sadness score.  Note that both
adjustments recompute from `sad_score`, so the second overwrites the first. -/
def adjustedScore (sad_score fear_score neutral_score : ℚ) : ℚ :=
  let a0 := sad_score
  let a1 := if fear_score > 20 then min 100 (sad_score + fear_score * 0.3) else a0
  if neutral_score > 40 ∧ sad_score > 20 then min 100 (sad_score + neutral_score * 0.2) else a1

/-- `face.py` lines 144-149: iterate the band table and return the first band
whose half-open range `min_val <= adjusted < max_val` contains the adjusted
score (the returned confidence is the adjusted score); if no band matches,
default to `("upset", sad_score)`. -/
def classifyLoop : List (String × ℚ × ℚ) → ℚ → ℚ → String × ℚ
  | [], _, sad_score => ("upset", sad_score)
  | (level, min_val, max_val) :: rest, adjusted, sad_score =>
      if min_val ≤ adjusted ∧ adjusted < max_val then (level, adjusted)
      else classifyLoop rest adjusted sad_score

/-- `face.py` lines 124-149: `classify_sadness_level`. -/
def classify_sadness_level (sad_score fear_score neutral_score : ℚ) : String × ℚ :=
  classifyLoop SADNESS_LEVELS (adjustedScore sad_score fear_score neutral_score) sad_score

/-- `face.py` lines 97-98: the emotion-scores dict built from the model's
7-vector of probabilities, keyed by `EMOTIONS` in order, values scaled by
100 (the successful branch of `predict_emotion_custom`). -/
def predict_emotion_custom (predictions : Fin 7 → ℚ) : List (String × ℚ) :=
  (List.finRange 7).map fun i => (emotionAt i, predictions i * 100)

/-- `face.py` lines 159-167: the display remapping table `emotion_map`. -/
def emotion_map : List (String × String) :=
  [("happy", "happy"), ("sad", "sad"), ("angry", "angry"), ("fear", "fearful"),
   ("surprise", "surprised"), ("neutral", "neutral"), ("disgust", "angry")]

/-- Python `emotion_map.get(k, k)`. -/
def emotionMapGet (k : String) : String := (emotion_map.lookup k).getD k

/-- `face.py` lines 151-172: `get_dominant_emotion`.  Returns `none` for an
empty scores dict, otherwise the display-mapped first-argmax label together
with the scores. -/
def get_dominant_emotion (emotion_scores : List (String × ℚ)) :
    Option (String × List (String × ℚ)) :=
  match emotion_scores with
  | [] => none
  | x :: xs => some (emotionMapGet (pyMaxAux x xs).1, x :: xs)

/-- One per-tick sample stored in `window_emotions` (`face.py` lines 279-282). -/
structure FaceSample where
  emotion : String
  scores : List (String × ℚ)
deriving DecidableEq

/-- The mean of the recorded sad intensities
(`total_intensity / len(window_sadness_data)`, `face.py` line 394). -/
def meanIntensity (sadData : List (String × ℚ)) : ℚ :=
  (sadData.map (·.2)).sum / sadData.length

/-- The summary row written at window close (`face.py` lines 399-409); the
textual timestamp and model-type columns are omitted. -/
structure FaceRow where
  primary_emotion : String
  sadness_level : String
  sadness_intensity : CsvField ℚ
  emotion_counts : List (String × ℕ)
  samples_collected : ℕ
deriving DecidableEq

/-- `face.py` lines 373-409: compute the window-summary row from the two
window buffers (only called when `window_emotions` is non-empty). -/
def mkWindowRow (window_emotions : List FaceSample) (window_sadness_data : List (String × ℚ)) :
    FaceRow :=
  let emotion_counts := countsOf (window_emotions.map (·.emotion))
  let dominant := ((pyMaxOpt emotion_counts).map (·.1)).getD ""
  let sadness_level : Option String :=
    if window_sadness_data.isEmpty then none
    else some (((pyMaxOpt (countsOf (window_sadness_data.map (·.1)))).map (·.1)).getD "")
  let sadness_intensity : Option ℚ :=
    if window_sadness_data.isEmpty then none
    else some (meanIntensity window_sadness_data)
  { primary_emotion := dominant
    sadness_level :=
      match sadness_level with
      | none => "N/A"
      | some l => if l = "" then "N/A" else l
    sadness_intensity :=
      match sadness_intensity with
      | none => CsvField.na
      | some v => if v = 0 then CsvField.na else CsvField.formatted v
    emotion_counts := emotion_counts
    samples_collected := window_emotions.length }

/-- `face.py` line 27: `AGGREGATION_WINDOW = 30`. -/
def AGGREGATION_WINDOW : ℚ := 30

/-- The aggregation state of the main loop: `window_start`,
`window_emotions`, `window_sadness_data` (`face.py` lines 227-229). -/
structure FaceState where
  windowStart : ℚ
  emotions : List FaceSample
  sadData : List (String × ℚ)
deriving DecidableEq

/-- `face.py` lines 371-421: the per-frame aggregation-window check.  When
the window has elapsed, a row is emitted iff `window_emotions` is non-empty,
and both buffers are cleared and `window_start` reset unconditionally. -/
def maybe_flush (now : ℚ) (s : FaceState) : FaceState × Option FaceRow :=
  if now - s.windowStart ≥ AGGREGATION_WINDOW then
    (⟨now, [], []⟩, if s.emotions.isEmpty then none else some (mkWindowRow s.emotions s.sadData))
  else (s, none)

end Face

namespace FaceAdvanced

noncomputable section

/-- A 2D landmark point (pixel coordinates, modelled as reals). -/
abbrev Point : Type := ℝ × ℝ

/-- `np.linalg.norm(a - b)` for 2D points: the Euclidean distance. -/
def pdist (a b : Point) : ℝ := Real.sqrt ((a.1 - b.1) ^ 2 + (a.2 - b.2) ^ 2)

/-- `np.mean(points, axis=0)`: the coordinate-wise mean of `n` points. -/
def meanPoint {n : ℕ} (ps : Fin n → Point) : Point :=
  ((∑ i, (ps i).1) / n, (∑ i, (ps i).2) / n)

/-- The `features` dict extracted from the 68 dlib landmarks
(`face_advanced.py` lines 110-118); each group keeps its point count. -/
structure Landmarks where
  left_eye : Fin 6 → Point
  right_eye : Fin 6 → Point
  left_eyebrow : Fin 5 → Point
  right_eyebrow : Fin 5 → Point
  nose : Fin 9 → Point
  mouth : Fin 20 → Point
  jaw : Fin 17 → Point

/-- `face_advanced.py` lines 124-136, `calculate_eye_aspect_ratio`:
`(A + B) / (2.0 * C)` with `A = |p1-p5|`, `B = |p2-p4|`, `C = |p0-p3|`. -/
def calculate_eye_aspect (eye : Fin 6 → Point) : ℝ :=
  (pdist (eye 1) (eye 5) + pdist (eye 2) (eye 4)) / (2 * pdist (eye 0) (eye 3))

/-- `face_advanced.py` lines 138-146, `calculate_eyebrow_distance`: distance
between the eyebrow centroid and the eye centroid. -/
def calculate_eyebrow_distance (eyebrow : Fin 5 → Point) (eye : Fin 6 → Point) : ℝ :=
  pdist (meanPoint eyebrow) (meanPoint eye)

/-- `face_advanced.py` lines 148-171, `calculate_mouth_aspect_ratio`: returns
the pair `(mar, downturn)` where `mar = vertical/horizontal` (0 when
`horizontal = 0`) and `downturn = max(0, corner_avg_y - center_y)`. -/
def calculate_mouth_aspect (mouth : Fin 20 → Point) : ℝ × ℝ :=
  let left_corner := mouth 0
  let right_corner := mouth 6
  let top_center := mouth 3
  let bottom_center := mouth 9
  let vertical := pdist top_center bottom_center
  let horizontal := pdist left_corner right_corner
  let center_y := (top_center.2 + bottom_center.2) / 2
  let corner_avg_y := (left_corner.2 + right_corner.2) / 2
  let downturn := max 0 (corner_avg_y - center_y)
  let mar := if horizontal > 0 then vertical / horizontal else 0
  (mar, downturn)

/-- `np.var(jaw, axis=0).mean()` (`face_advanced.py` line 228): population
variance of each coordinate over the 17 jaw points, then the mean of the two
per-coordinate variances. -/
def jawVarianceMean (jaw : Fin 17 → Point) : ℝ :=
  let mx := (∑ i, (jaw i).1) / 17
  let my := (∑ i, (jaw i).2) / 17
  ((∑ i, ((jaw i).1 - mx) ^ 2) / 17 + (∑ i, ((jaw i).2 - my) ^ 2) / 17) / 2

/-- The averaged eye aspect value used at `face_advanced.py` lines 185-187. -/
def avg_ear (l : Landmarks) : ℝ :=
  (calculate_eye_aspect l.left_eye + calculate_eye_aspect l.right_eye) / 2

/-- The averaged eyebrow-eye distance used at `face_advanced.py` lines 198-200. -/
def avg_brow_dist (l : Landmarks) : ℝ :=
  (calculate_eyebrow_distance l.left_eyebrow l.left_eye +
    calculate_eyebrow_distance l.right_eyebrow l.right_eye) / 2

/-- The `mar` component of the mouth analysis (`face_advanced.py` line 211). -/
def mouthMar (l : Landmarks) : ℝ := (calculate_mouth_aspect l.mouth).1

/-- The `downturn` component of the mouth analysis (`face_advanced.py` line 211). -/
def mouthDownturn (l : Landmarks) : ℝ := (calculate_mouth_aspect l.mouth).2

/-- The jaw-variance measurement (`face_advanced.py` line 228). -/
def jaw_variance (l : Landmarks) : ℝ := jawVarianceMean l.jaw

/-- `face_advanced.py` lines 181-232: the running
`(sadness_score, confidence)` pair after all five rubric branches, as a
function of the five geometric measurements. -/
def rubricPair (ear brow downturn mar jawVar : ℝ) : ℝ × ℝ :=
  let s1 : ℝ × ℝ := if ear < 0.20 then (0 + 30, 0 + 30)
    else if ear < 0.25 then (0 + 20, 0 + 20) else (0, 0)
  let s2 := if brow < 15 then (s1.1 + 25, s1.2 + 25)
    else if brow < 20 then (s1.1 + 15, s1.2 + 15) else s1
  let s3 := if downturn > 5 then (s2.1 + 35, s2.2 + 35)
    else if downturn > 2 then (s2.1 + 20, s2.2 + 20) else s2
  let s4 := if mar < 0.3 then (s3.1 + 10, s3.2 + 10) else s3
  if jawVar < 50 then (s4.1 + 10, s4.2 + 10) else s4

/-- `face_advanced.py` lines 181-237: the rubric score with the final
normalization `min(100, (sadness_score / confidence) * 100)` applied when
`confidence > 0`. -/
def rubric (ear brow downturn mar jawVar : ℝ) : ℝ :=
  let s := rubricPair ear brow downturn mar jawVar
  if s.2 > 0 then min 100 (s.1 / s.2 * 100) else s.1

/-- `face_advanced.py` lines 173-237, `analyze_facial_features`: 50.0 when
landmarks are absent, otherwise the rubric applied to the five geometric
measurements. -/
def analyze_facial_features (landmarks : Option Landmarks) : ℝ :=
  match landmarks with
  | none => 50.0
  | some l => rubric (avg_ear l) (avg_brow_dist l) (mouthDownturn l) (mouthMar l) (jaw_variance l)

/-- The raw outputs of the binary model for one face: `predictions[0][0][0]`
(sad), `predictions[0][0][1]` (happy) and `predictions[1][0][0]` (intensity),
before the `* 100` scaling (`face_advanced.py` lines 257-262). -/
structure ModelOutput where
  sad_raw : ℝ
  happy_raw : ℝ
  intensity_raw : ℝ

/-- `face_advanced.py` lines 247-281, `predict_emotion`: returns the tuple
`(emotion, intensity, sad_prob, happy_prob)`.  A backend exception (modelled
by `none` model output) yields the fallback `("neutral", 0.0, 50.0, 50.0)`. -/
def predict_emotion (out : Option ModelOutput) (landmarks : Option Landmarks) :
    String × ℝ × ℝ × ℝ :=
  match out with
  | none => ("neutral", 0.0, 50.0, 50.0)
  | some o =>
    let sad_prob := o.sad_raw * 100
    let happy_prob := o.happy_raw * 100
    let model_intensity := o.intensity_raw * 100
    if happy_prob > sad_prob then ("happy", 0.0, sad_prob, happy_prob)
    else
      match landmarks with
      | some lm =>
          ("sad", model_intensity * 0.6 + analyze_facial_features (some lm) * 0.4,
            sad_prob, happy_prob)
      | none => ("sad", model_intensity, sad_prob, happy_prob)

/-- `face_advanced.py` lines 44-48: the band table `SADNESS_LEVELS`. -/
def SADNESS_LEVELS : List (String × ℝ × ℝ) :=
  [("mild_upset", 0, 35), ("moderate_melancholic", 35, 65), ("severe_depressed", 65, 100)]

/-- `face_advanced.py` lines 285-288: iterate the band table, returning
`level.split('_')[1]` for the first band whose half-open range contains the
intensity; default `"upset"`. -/
def classifyLoop : List (String × ℝ × ℝ) → ℝ → String
  | [], _ => "upset"
  | (level, min_val, max_val) :: rest, intensity =>
      if min_val ≤ intensity ∧ intensity < max_val then splitUnderscoreSecond level
      else classifyLoop rest intensity

/-- `face_advanced.py` lines 283-288, `classify_sadness_level`. -/
def classify_sadness_level (intensity : ℝ) : String :=
  classifyLoop SADNESS_LEVELS intensity

/-- One per-tick sample stored in `window_emotions`
(`face_advanced.py` lines 422-427). -/
structure AdvSample where
  emotion : String
  intensity : ℝ
  sad_prob : ℝ
  happy_prob : ℝ

/-- The aggregation state of the main loop: `window_start`,
`window_emotions`, `window_sadness_data` (`face_advanced.py` lines 373-375). -/
structure AdvState where
  windowStart : ℝ
  emotions : List AdvSample
  sadData : List (String × ℝ)

/-- `face_advanced.py` lines 414-437: store one tick's prediction tuple —
append the sample to `window_emotions` unconditionally and, when the emotion
is `"sad"`, also append `(classify_sadness_level intensity, intensity)` to
`window_sadness_data`. -/
def recordTick (r : String × ℝ × ℝ × ℝ) (s : AdvState) : AdvState :=
  { windowStart := s.windowStart
    emotions := s.emotions ++ [⟨r.1, r.2.1, r.2.2.1, r.2.2.2⟩]
    sadData :=
      if r.1 = "sad" then s.sadData ++ [(classify_sadness_level r.2.1, r.2.1)]
      else s.sadData }

/-- The mean of the recorded sad intensities (`face_advanced.py` line 519). -/
def meanIntensity (sadData : List (String × ℝ)) : ℝ :=
  (sadData.map (·.2)).sum / sadData.length

/-- The summary row written at window close (`face_advanced.py` lines
528-539); the textual timestamp and `landmarks_used` columns are omitted. -/
structure AdvRow where
  primary_emotion : String
  sadness_level : String
  sadness_intensity : CsvField ℝ
  happy_confidence : ℝ
  sad_confidence : ℝ
  samples_collected : ℕ

/-- `face_advanced.py` lines 501-539: compute the window-summary row from
the two window buffers (only called when `window_emotions` is non-empty). -/
def mkWindowRow (window_emotions : List AdvSample) (window_sadness_data : List (String × ℝ)) :
    AdvRow :=
  let emotion_counts := countsOf (window_emotions.map (·.emotion))
  let dominant := ((pyMaxOpt emotion_counts).map (·.1)).getD ""
  let sadness_level : Option String :=
    if window_sadness_data.isEmpty then none
    else some (((pyMaxOpt (countsOf (window_sadness_data.map (·.1)))).map (·.1)).getD "")
  let sadness_intensity : Option ℝ :=
    if window_sadness_data.isEmpty then none
    else some (meanIntensity window_sadness_data)
  { primary_emotion := dominant
    sadness_level :=
      match sadness_level with
      | none => "N/A"
      | some l => if l = "" then "N/A" else l
    sadness_intensity :=
      match sadness_intensity with
      | none => CsvField.na
      | some v => if v = 0 then CsvField.na else CsvField.formatted v
    happy_confidence := (window_emotions.map (·.happy_prob)).sum / window_emotions.length
    sad_confidence := (window_emotions.map (·.sad_prob)).sum / window_emotions.length
    samples_collected := window_emotions.length }

/-- A concrete landmark set used to evaluate the geometric pipeline on an
explicit input: degenerate eyes with unit width, coincident eyebrow points,
a mouth whose corners sit 10 pixels below its (coincident) center points,
and a fully coincident jaw.  All pairwise distances that the measurement
functions take are 0, 1, 1/6 or 2, so every square root evaluates exactly. -/
def witnessLandmarks : Landmarks where
  left_eye := fun i => if i = 3 then (1, 0) else (0, 0)
  right_eye := fun i => if i = 3 then (1, 0) else (0, 0)
  left_eyebrow := fun _ => (0, 0)
  right_eyebrow := fun _ => (0, 0)
  nose := fun _ => (0, 0)
  mouth := fun i => if i = 0 then (0, 10) else if i = 6 then (2, 10) else (0, 0)
  jaw := fun _ => (0, 0)

/-- `face_advanced.py` line 37: `AGGREGATION_WINDOW = 30`. -/
def AGGREGATION_WINDOW : ℝ := 30

/-- `face_advanced.py` lines 500-551: the per-frame window check.  Unlike
`face.py`, the elapsed-time test is conjoined with `window_emotions` being
non-empty, so an empty elapsed window leaves the state (including
`window_start`) untouched. -/
def maybe_flush (now : ℝ) (s : AdvState) : AdvState × Option AdvRow :=
  if now - s.windowStart ≥ AGGREGATION_WINDOW ∧ ¬s.emotions.isEmpty then
    (⟨now, [], []⟩, some (mkWindowRow s.emotions s.sadData))
  else (s, none)

end

end FaceAdvanced

/-! ### Properties of the Python `max` and dict-counting embeddings -/

theorem pyMaxAux_spec {α β : Type} [LinearOrder β] (x : α × β) (xs : List (α × β)) :
    ∃ n, (x :: xs).get? n = some (pyMaxAux x xs) ∧
      (∀ y ∈ x :: xs, y.2 ≤ (pyMaxAux x xs).2) ∧
      (∀ m, m < n → ∀ y, (x :: xs).get? m = some y → y.2 < (pyMaxAux x xs).2) := by
  induction xs generalizing x with
  | nil =>
    refine ⟨0, rfl, ?_, ?_⟩
    · intro y hy
      simp only [pyMaxAux, List.foldl_nil]
      rcases List.mem_singleton.mp hy with h
      exact h ▸ le_refl _
    · intro m hm
      omega
  | cons y ys ih =>
    have hstep : pyMaxAux x (y :: ys) = pyMaxAux (if y.2 > x.2 then y else x) ys := by
      simp [pyMaxAux, List.foldl_cons]
    by_cases hxy : y.2 > x.2
    · rw [hstep, if_pos hxy]
      obtain ⟨n, hget, hmax, hbefore⟩ := ih y
      refine ⟨n + 1, ?_, ?_, ?_⟩
      · simpa using hget
      · intro z hz
        rcases List.mem_cons.mp hz with h | h
        · subst h
          exact le_trans (le_of_lt hxy) (hmax y (List.mem_cons_self _ _))
        · exact hmax z h
      · intro m hm z hz
        cases m with
        | zero =>
          simp only [List.get?_cons_zero, Option.some.injEq] at hz
          subst hz
          exact lt_of_lt_of_le hxy (hmax y (List.mem_cons_self _ _))
        | succ m' =>
          have hm' : m' < n := by omega
          exact hbefore m' hm' z (by simpa using hz)
    · rw [hstep, if_neg hxy]
      push_neg at hxy
      obtain ⟨n, hget, hmax, hbefore⟩ := ih x
      cases n with
      | zero =>
        have hget' : x = pyMaxAux x ys := by simpa using hget
        refine ⟨0, by simp [← hget'], ?_, ?_⟩
        · intro z hz
          rw [← hget']
          rcases List.mem_cons.mp hz with h | h
          · subst h
            exact le_refl _
          · rcases List.mem_cons.mp h with h' | h'
            · subst h'
              exact hxy
            · have hz2 := hmax z (List.mem_cons_of_mem _ h')
              rw [← hget'] at hz2
              exact hz2
        · intro m hm
          omega
      | succ n' =>
        have hx2 : x.2 < (pyMaxAux x ys).2 :=
          hbefore 0 (Nat.succ_pos _) x (by simp)
        refine ⟨n' + 2, ?_, ?_, ?_⟩
        · simpa using hget
        · intro z hz
          rcases List.mem_cons.mp hz with h | h
          · subst h
            exact hmax z (List.mem_cons_self _ _)
          · rcases List.mem_cons.mp h with h' | h'
            · subst h'
              exact le_trans hxy (hmax x (List.mem_cons_self _ _))
            · exact hmax z (List.mem_cons_of_mem _ h')
        · intro m hm z hz
          match m, hz with
          | 0, hz =>
            simp only [List.get?_cons_zero, Option.some.injEq] at hz
            subst hz
            exact hx2
          | 1, hz =>
            simp only [List.get?_cons_succ, List.get?_cons_zero, Option.some.injEq] at hz
            subst hz
            exact lt_of_le_of_lt hxy hx2
          | (m'' + 2), hz =>
            have hm'' : m'' + 1 < n' + 1 := by omega
            exact hbefore (m'' + 1) hm'' z (by simpa using hz)

theorem pyMaxAux_mem {α β : Type} [LinearOrder β] (x : α × β) (xs : List (α × β)) :
    pyMaxAux x xs ∈ x :: xs := by
  obtain ⟨n, hget, -, -⟩ := pyMaxAux_spec x xs
  exact List.get?_mem hget

theorem bumpCount_ne_nil (c : List (String × ℕ)) (k : String) : bumpCount c k ≠ [] := by
  cases c with
  | nil => simp [bumpCount]
  | cons p rest =>
    obtain ⟨k', n⟩ := p
    by_cases h : k' = k <;> simp [bumpCount, h]

theorem foldl_bumpCount_ne_nil (labels : List String) (acc : List (String × ℕ))
    (hacc : acc ≠ []) : labels.foldl bumpCount acc ≠ [] := by
  induction labels generalizing acc with
  | nil => simpa
  | cons l ls ih => exact ih (bumpCount acc l) (bumpCount_ne_nil acc l)

theorem countsOf_ne_nil (labels : List String) (h : labels ≠ []) : countsOf labels ≠ [] := by
  cases labels with
  | nil => exact absurd rfl h
  | cons l ls =>
    show (l :: ls).foldl bumpCount [] ≠ []
    rw [List.foldl_cons]
    exact foldl_bumpCount_ne_nil ls (bumpCount [] l) (bumpCount_ne_nil [] l)

theorem mem_bumpCount_key (c : List (String × ℕ)) (k : String) (p : String × ℕ)
    (hp : p ∈ bumpCount c k) : p.1 ∈ c.map (·.1) ∨ p.1 = k := by
  induction c with
  | nil =>
    simp only [bumpCount, List.mem_singleton] at hp
    subst hp
    exact Or.inr rfl
  | cons q rest ih =>
    obtain ⟨k', n⟩ := q
    by_cases h : k' = k
    · simp only [bumpCount, if_pos h] at hp
      rcases List.mem_cons.mp hp with h' | h'
      · subst h'
        exact Or.inl (by simp)
      · exact Or.inl (List.mem_cons_of_mem _ (List.mem_map_of_mem _ h'))
    · simp only [bumpCount, if_neg h] at hp
      rcases List.mem_cons.mp hp with h' | h'
      · subst h'
        exact Or.inl (by simp)
      · rcases ih h' with h'' | h''
        · exact Or.inl (List.mem_cons_of_mem _ h'')
        · exact Or.inr h''

theorem mem_foldl_bumpCount_key (labels : List String) :
    ∀ (acc : List (String × ℕ)) (p : String × ℕ), p ∈ labels.foldl bumpCount acc →
      p.1 ∈ acc.map (·.1) ∨ p.1 ∈ labels := by
  induction labels with
  | nil =>
    intro acc p hmem
    exact Or.inl (List.mem_map_of_mem _ hmem)
  | cons l ls ih =>
    intro acc p hmem
    rw [List.foldl_cons] at hmem
    rcases ih (bumpCount acc l) p hmem with h' | h'
    · rcases List.mem_map.mp h' with ⟨q, hq, hq1⟩
      rcases mem_bumpCount_key acc l q hq with h'' | h''
      · exact Or.inl (hq1 ▸ h'')
      · exact Or.inr (by simp [← hq1, h''])
    · exact Or.inr (List.mem_cons_of_mem _ h')

theorem mem_countsOf_key (labels : List String) (p : String × ℕ)
    (hp : p ∈ countsOf labels) : p.1 ∈ labels := by
  rcases mem_foldl_bumpCount_key labels [] p hp with h' | h'
  · simp at h'
  · exact h'

/-! ### Structure of the geometric rubric in `analyze_facial_features` -/

namespace FaceAdvanced

noncomputable section

theorem rubricPair_eq (ear brow downturn mar jawVar : ℝ) :
    (rubricPair ear brow downturn mar jawVar).1 = (rubricPair ear brow downturn mar jawVar).2 := by
  unfold rubricPair
  split_ifs <;> norm_num

theorem rubricPair_nonneg (ear brow downturn mar jawVar : ℝ) :
    0 ≤ (rubricPair ear brow downturn mar jawVar).2 := by
  unfold rubricPair
  split_ifs <;> norm_num

theorem rubricPair_pos (ear brow downturn mar jawVar : ℝ)
    (h : ear < 0.25 ∨ brow < 20 ∨ downturn > 2 ∨ mar < 0.3 ∨ jawVar < 50) :
    0 < (rubricPair ear brow downturn mar jawVar).2 := by
  unfold rubricPair
  split_ifs <;> try norm_num
  all_goals rcases h with h | h | h | h | h <;> linarith

set_option maxHeartbeats 1000000 in
theorem rubricPair_zero (ear brow downturn mar jawVar : ℝ)
    (h : ¬(ear < 0.25 ∨ brow < 20 ∨ downturn > 2 ∨ mar < 0.3 ∨ jawVar < 50)) :
    rubricPair ear brow downturn mar jawVar = (0, 0) := by
  push_neg at h
  obtain ⟨h1, h2, h3, h4, h5⟩ := h
  unfold rubricPair
  split_ifs <;> first | (exfalso; linarith) | simp

theorem rubric_eq_zero_or_100 (ear brow downturn mar jawVar : ℝ) :
    rubric ear brow downturn mar jawVar = 0 ∨ rubric ear brow downturn mar jawVar = 100 := by
  have hs := rubricPair_eq ear brow downturn mar jawVar
  have hnn := rubricPair_nonneg ear brow downturn mar jawVar
  unfold rubric
  by_cases hp : (rubricPair ear brow downturn mar jawVar).2 > 0
  · right
    rw [if_pos hp, hs, div_self (ne_of_gt hp)]
    norm_num
  · left
    rw [if_neg hp, hs]
    linarith

theorem rubric_of_fires (ear brow downturn mar jawVar : ℝ)
    (h : ear < 0.25 ∨ brow < 20 ∨ downturn > 2 ∨ mar < 0.3 ∨ jawVar < 50) :
    rubric ear brow downturn mar jawVar = 100 := by
  have hp := rubricPair_pos ear brow downturn mar jawVar h
  have hs := rubricPair_eq ear brow downturn mar jawVar
  unfold rubric
  rw [if_pos hp, hs, div_self (ne_of_gt hp)]
  norm_num

theorem rubric_of_no_fire (ear brow downturn mar jawVar : ℝ)
    (h : ¬(ear < 0.25 ∨ brow < 20 ∨ downturn > 2 ∨ mar < 0.3 ∨ jawVar < 50)) :
    rubric ear brow downturn mar jawVar = 0 := by
  have hz := rubricPair_zero ear brow downturn mar jawVar h
  unfold rubric
  rw [hz]
  norm_num

end

end FaceAdvanced

/-! ### Evaluation of the geometric measurements on the witness landmarks -/

namespace FaceAdvanced

noncomputable section

theorem witness_avg_ear : avg_ear witnessLandmarks = 0 := by
  simp [avg_ear, calculate_eye_aspect, witnessLandmarks, pdist]

theorem witness_avg_brow : avg_brow_dist witnessLandmarks = 1 / 6 := by
  simp [avg_brow_dist, calculate_eyebrow_distance, witnessLandmarks, pdist, meanPoint,
    Fin.sum_univ_six, Fin.sum_univ_five]

theorem witness_mouth : calculate_mouth_aspect witnessLandmarks.mouth = (0, 10) := by
  simp [calculate_mouth_aspect, witnessLandmarks, pdist]

theorem witness_jaw : jaw_variance witnessLandmarks = 0 := by
  simp [jaw_variance, jawVarianceMean, witnessLandmarks]

theorem witness_features : analyze_facial_features (some witnessLandmarks) = 100 := by
  rw [show analyze_facial_features (some witnessLandmarks) =
      rubric (avg_ear witnessLandmarks) (avg_brow_dist witnessLandmarks)
        (mouthDownturn witnessLandmarks) (mouthMar witnessLandmarks)
        (jaw_variance witnessLandmarks) from rfl,
    witness_avg_ear, witness_avg_brow, witness_jaw]
  rw [show mouthDownturn witnessLandmarks = 10 by
      rw [mouthDownturn, witness_mouth],
    show mouthMar witnessLandmarks = 0 by
      rw [mouthMar, witness_mouth]]
  norm_num [rubric, rubricPair]

end

end FaceAdvanced

/-! ### Claims -/

/-- C1 (counterexample): at `sad_score = 30`, `fear_score = 25`,
`neutral_score = 50` both adjustment conditions hold, but
`classify_sadness_level` returns adjusted score 40 = `min 100 (30 + 50*0.2)`
(the neutral adjustment recomputed from `sad_score`), not the claimed
running-total value `min 100 (min 100 (30 + 25*0.3) + 50*0.2) = 47.5`. -/
theorem C1_counterexample :
    Face.classify_sadness_level 30 25 50 = ("melancholic", 40) ∧
    Face.adjustedScore 30 25 50 = 40 ∧
    (40 : ℚ) ≠ min 100 (min 100 (30 + 25 * 0.3) + 50 * 0.2) := by
  refine ⟨?_, ?_, ?_⟩
  · norm_num [Face.classify_sadness_level, Face.adjustedScore, Face.classifyLoop,
      Face.SADNESS_LEVELS, min_def]
  · norm_num [Face.adjustedScore, min_def]
  · norm_num [min_def]

/-- C1 (amended): in the 7-class strategy the fear adjustment is applied
first, but the neutral adjustment is computed from the original `sad_score`
rather than the running total, so whenever both conditions hold
(`fear_score > 20`, `neutral_score > 40` and `sad_score > 20`) the final
adjusted score is `min 100 (sad_score + neutral_score * 0.2)`, discarding
the fear adjustment. -/
theorem C1_amended (s f n : ℚ) (hf : f > 20) (hn : n > 40) (hs : s > 20) :
    Face.adjustedScore s f n = min 100 (s + n * 0.2) ∧
    Face.classify_sadness_level s f n =
      Face.classifyLoop Face.SADNESS_LEVELS (min 100 (s + n * 0.2)) s := by
  have ha : Face.adjustedScore s f n = min 100 (s + n * 0.2) := by
    simp only [Face.adjustedScore, if_pos hf, if_pos (show n > 40 ∧ s > 20 from ⟨hn, hs⟩)]
  exact ⟨ha, by rw [Face.classify_sadness_level, ha]⟩

/-- C1 witness: the amended statement evaluated at
`(sad, fear, neutral) = (30, 25, 50)`. -/
theorem C1_witness :
    (25 : ℚ) > 20 ∧ (50 : ℚ) > 40 ∧ (30 : ℚ) > 20 ∧
    Face.adjustedScore 30 25 50 = min 100 (30 + 50 * 0.2) := by
  refine ⟨by norm_num, by norm_num, by norm_num, ?_⟩
  exact (C1_amended 30 25 50 (by norm_num) (by norm_num) (by norm_num)).1

/-- C5: a window whose samples carry the labels
`[sad, happy, sad, happy]` in that order flushes with dominant label
`"sad"`: the 2-2 count tie is broken by first-seen (insertion) order of the
labels, not alphabetically (`"happy" < "sad"` alphabetically). -/
theorem C5_tiebreak :
    (Face.maybe_flush 30
        ⟨0, [⟨"sad", []⟩, ⟨"happy", []⟩, ⟨"sad", []⟩, ⟨"happy", []⟩], []⟩).2.map
      Face.FaceRow.primary_emotion = some "sad" := by
  norm_num [Face.maybe_flush, Face.AGGREGATION_WINDOW, Face.mkWindowRow, countsOf, bumpCount,
    pyMaxOpt, pyMaxAux]
  decide

/-- C10: the band lookup is total and defensively defaulted in both band
tables: any adjusted intensity outside `[0,100]` matches no half-open band
range and falls through to the lowest band (`"upset"`, with the raw
`sad_score` as the returned confidence in `face.py`); moreover
`classify_sadness_level` in `face.py` is exactly this lookup applied to the
adjusted score. -/
theorem C10_default_lowest :
    (∀ A s : ℚ, A < 0 ∨ 100 < A →
      Face.classifyLoop Face.SADNESS_LEVELS A s = ("upset", s)) ∧
    (∀ I : ℝ, I < 0 ∨ 100 < I → FaceAdvanced.classify_sadness_level I = "upset") ∧
    (∀ s f n : ℚ, Face.classify_sadness_level s f n =
      Face.classifyLoop Face.SADNESS_LEVELS (Face.adjustedScore s f n) s) := by
  refine ⟨?_, ?_, fun s f n => rfl⟩
  · intro A s h
    simp only [Face.SADNESS_LEVELS, Face.classifyLoop]
    rcases h with h | h
    · rw [if_neg (by rintro ⟨h1, -⟩; linarith), if_neg (by rintro ⟨h1, -⟩; linarith),
        if_neg (by rintro ⟨h1, -⟩; linarith)]
    · rw [if_neg (by rintro ⟨-, h2⟩; linarith), if_neg (by rintro ⟨-, h2⟩; linarith),
        if_neg (by rintro ⟨-, h2⟩; linarith)]
  · intro I h
    simp only [FaceAdvanced.classify_sadness_level, FaceAdvanced.SADNESS_LEVELS,
      FaceAdvanced.classifyLoop]
    rcases h with h | h
    · rw [if_neg (by rintro ⟨h1, -⟩; linarith), if_neg (by rintro ⟨h1, -⟩; linarith),
        if_neg (by rintro ⟨h1, -⟩; linarith)]
    · rw [if_neg (by rintro ⟨-, h2⟩; linarith), if_neg (by rintro ⟨-, h2⟩; linarith),
        if_neg (by rintro ⟨-, h2⟩; linarith)]

/-- C10 witness: the defensive default evaluated at the out-of-range
intensities `-5` (rational table) and `101` (landmark-pipeline table). -/
theorem C10_witness :
    ((-5 : ℚ) < 0 ∨ 100 < (-5 : ℚ)) ∧
    Face.classifyLoop Face.SADNESS_LEVELS (-5) 7 = ("upset", 7) ∧
    ((101 : ℝ) < 0 ∨ 100 < (101 : ℝ)) ∧
    FaceAdvanced.classify_sadness_level 101 = "upset" := by
  refine ⟨Or.inl (by norm_num), ?_, Or.inr (by norm_num), ?_⟩
  · exact C10_default_lowest.1 (-5) 7 (Or.inl (by norm_num))
  · exact C10_default_lowest.2.1 101 (Or.inr (by norm_num))

/-- C2 (counterexample): in `face_advanced.py` the flush is gated on
`window_emotions` being non-empty, so an elapsed window with no recorded
samples is NOT reset: with `window_start = 0` and `now = 30` the elapsed
time equals the window length, yet `maybe_flush` leaves the state unchanged
(`window_start` stays 0, not `now`) and emits nothing. -/
theorem C2_counterexample :
    (30 : ℝ) - (FaceAdvanced.AdvState.mk 0 [] []).windowStart ≥
      FaceAdvanced.AGGREGATION_WINDOW ∧
    FaceAdvanced.maybe_flush 30 ⟨0, [], []⟩ = (⟨0, [], []⟩, none) ∧
    (FaceAdvanced.AdvState.mk 0 [] []).windowStart ≠ 30 := by
  refine ⟨by norm_num [FaceAdvanced.AGGREGATION_WINDOW], ?_, by norm_num⟩
  norm_num [FaceAdvanced.maybe_flush, FaceAdvanced.AGGREGATION_WINDOW]

/-- C2 (amended): the unconditional reset holds only in `face.py`: there,
once the window has elapsed, both buffers are cleared and `window_start` is
reset to `now` even when no samples were recorded (an empty window emits no
row).  In `face_advanced.py` the flush (and hence the reset) fires only when
the sample list is non-empty: an empty window never resets `window_start`
and emits nothing. -/
theorem C2_amended :
    (∀ (now : ℚ) (s : Face.FaceState),
      now - s.windowStart ≥ Face.AGGREGATION_WINDOW →
        (Face.maybe_flush now s).1 = ⟨now, [], []⟩ ∧
        (s.emotions = [] → (Face.maybe_flush now s).2 = none)) ∧
    (∀ (now : ℝ) (s : FaceAdvanced.AdvState),
      s.emotions = [] → FaceAdvanced.maybe_flush now s = (s, none)) := by
  constructor
  · intro now s h
    rw [Face.maybe_flush, if_pos h]
    exact ⟨rfl, fun he => by simp [he]⟩
  · intro now s h
    rw [FaceAdvanced.maybe_flush, if_neg (by simp [h])]

/-- C2 witness: the amended statement evaluated on an empty elapsed window
(`window_start = 0`, `now = 31`) in each pipeline. -/
theorem C2_witness :
    ((31 : ℚ) - 0 ≥ Face.AGGREGATION_WINDOW ∧
      (Face.maybe_flush 31 ⟨0, [], []⟩).1 = ⟨31, [], []⟩ ∧
      (Face.maybe_flush 31 ⟨0, [], []⟩).2 = none) ∧
    FaceAdvanced.maybe_flush 31 ⟨0, [], []⟩ = (⟨0, [], []⟩, none) := by
  constructor
  · have h : (31 : ℚ) - (Face.FaceState.mk 0 [] []).windowStart ≥ Face.AGGREGATION_WINDOW := by
      norm_num [Face.AGGREGATION_WINDOW]
    obtain ⟨h1, h2⟩ := C2_amended.1 31 ⟨0, [], []⟩ h
    exact ⟨h, h1, h2 rfl⟩
  · exact C2_amended.2 31 ⟨0, [], []⟩ rfl

/-- C4 (counterexample): on classifier failure `predict_emotion` returns the
fallback `("neutral", 0.0, 50.0, 50.0)`, and the main loop's storage step
appends that fallback to the window's sample list like any other sample, so
the aggregator DOES observe the sample of a failed classification. -/
theorem C4_counterexample :
    FaceAdvanced.predict_emotion none none = ("neutral", 0.0, 50.0, 50.0) ∧
    (FaceAdvanced.recordTick (FaceAdvanced.predict_emotion none none)
        ⟨0, [], []⟩).emotions ≠ [] := by
  refine ⟨rfl, ?_⟩
  simp [FaceAdvanced.recordTick, FaceAdvanced.predict_emotion]

/-- C4 (amended): on classifier failure the tick is not skipped: the
fallback `("neutral", 0.0, 50.0, 50.0)` returned by `predict_emotion` is
appended to the window's sample list (and so contributes to the window's
emotion counts); it is only the sad-sample list that never receives it,
because its label is `"neutral"`, not `"sad"`. -/
theorem C4_amended (lm : Option FaceAdvanced.Landmarks) (s : FaceAdvanced.AdvState) :
    (FaceAdvanced.recordTick (FaceAdvanced.predict_emotion none lm) s).emotions =
      s.emotions ++ [⟨"neutral", 0.0, 50.0, 50.0⟩] ∧
    (FaceAdvanced.recordTick (FaceAdvanced.predict_emotion none lm) s).sadData =
      s.sadData := by
  constructor
  · rfl
  · simp [FaceAdvanced.recordTick, FaceAdvanced.predict_emotion]

/-- C6: in the landmark pipeline, a sad prediction (`happy_prob` not greater
than `sad_prob`) with landmarks present reports intensity
`model_intensity * 0.6 + analyze_facial_features(landmarks) * 0.4` (the
60/40 blend of the model intensity `predictions[1][0][0] * 100` and the
geometric rubric score, the latter normalized inside
`analyze_facial_features` as `min 100 ((score/confidence) * 100)`); with
landmarks absent the geometric scorer returns exactly 50.0 and the reported
intensity degrades to the model intensity alone. -/
theorem C6_blend :
    FaceAdvanced.analyze_facial_features none = 50 ∧
    (∀ (o : FaceAdvanced.ModelOutput) (lm : FaceAdvanced.Landmarks),
      ¬(o.happy_raw * 100 > o.sad_raw * 100) →
      FaceAdvanced.predict_emotion (some o) (some lm) =
        ("sad",
          o.intensity_raw * 100 * 0.6 + FaceAdvanced.analyze_facial_features (some lm) * 0.4,
          o.sad_raw * 100, o.happy_raw * 100)) ∧
    (∀ o : FaceAdvanced.ModelOutput, ¬(o.happy_raw * 100 > o.sad_raw * 100) →
      FaceAdvanced.predict_emotion (some o) none =
        ("sad", o.intensity_raw * 100, o.sad_raw * 100, o.happy_raw * 100)) := by
  refine ⟨by norm_num [FaceAdvanced.analyze_facial_features], ?_, ?_⟩
  · intro o lm h
    simp only [FaceAdvanced.predict_emotion, if_neg h]
  · intro o h
    simp only [FaceAdvanced.predict_emotion, if_neg h]

/-- C6 witness: the blend evaluated at the model output
`(sad_raw, happy_raw, intensity_raw) = (0.5, 0.4, 0.7)` with the concrete
witness landmarks (whose geometric score is 100), and at the same output
with landmarks absent. -/
theorem C6_witness :
    ¬((0.4 : ℝ) * 100 > (0.5 : ℝ) * 100) ∧
    FaceAdvanced.predict_emotion (some ⟨0.5, 0.4, 0.7⟩) (some FaceAdvanced.witnessLandmarks) =
      ("sad",
        (0.7 : ℝ) * 100 * 0.6 +
          FaceAdvanced.analyze_facial_features (some FaceAdvanced.witnessLandmarks) * 0.4,
        (0.5 : ℝ) * 100, (0.4 : ℝ) * 100) ∧
    FaceAdvanced.analyze_facial_features (some FaceAdvanced.witnessLandmarks) = 100 ∧
    FaceAdvanced.predict_emotion (some ⟨0.5, 0.4, 0.7⟩) none =
      ("sad", (0.7 : ℝ) * 100, (0.5 : ℝ) * 100, (0.4 : ℝ) * 100) := by
  have h : ¬((0.4 : ℝ) * 100 > (0.5 : ℝ) * 100) := by norm_num
  exact ⟨h, C6_blend.2.1 ⟨0.5, 0.4, 0.7⟩ FaceAdvanced.witnessLandmarks h,
    FaceAdvanced.witness_features, C6_blend.2.2 ⟨0.5, 0.4, 0.7⟩ h⟩

/-- C7: for every present landmark set the geometric scorer is all-or-
nothing: it returns exactly 0.0 when no rubric indicator fires (the running
confidence stays 0) and exactly 100.0 when at least one fires, never an
intermediate value — every rubric branch adds the same amount to the score
and to the confidence, so `(score/confidence) * 100` is identically 100. -/
theorem C7_all_or_nothing (lm : FaceAdvanced.Landmarks) :
    (FaceAdvanced.analyze_facial_features (some lm) = 0 ∨
      FaceAdvanced.analyze_facial_features (some lm) = 100) ∧
    (¬(FaceAdvanced.avg_ear lm < 0.25 ∨ FaceAdvanced.avg_brow_dist lm < 20 ∨
        FaceAdvanced.mouthDownturn lm > 2 ∨ FaceAdvanced.mouthMar lm < 0.3 ∨
        FaceAdvanced.jaw_variance lm < 50) →
      FaceAdvanced.analyze_facial_features (some lm) = 0) ∧
    ((FaceAdvanced.avg_ear lm < 0.25 ∨ FaceAdvanced.avg_brow_dist lm < 20 ∨
        FaceAdvanced.mouthDownturn lm > 2 ∨ FaceAdvanced.mouthMar lm < 0.3 ∨
        FaceAdvanced.jaw_variance lm < 50) →
      FaceAdvanced.analyze_facial_features (some lm) = 100) := by
  have heq : FaceAdvanced.analyze_facial_features (some lm) =
      FaceAdvanced.rubric (FaceAdvanced.avg_ear lm) (FaceAdvanced.avg_brow_dist lm)
        (FaceAdvanced.mouthDownturn lm) (FaceAdvanced.mouthMar lm)
        (FaceAdvanced.jaw_variance lm) := rfl
  rw [heq]
  exact ⟨FaceAdvanced.rubric_eq_zero_or_100 _ _ _ _ _,
    FaceAdvanced.rubric_of_no_fire _ _ _ _ _,
    FaceAdvanced.rubric_of_fires _ _ _ _ _⟩

/-- C7 witness: on the concrete witness landmarks the eye indicator fires
(average eye aspect 0 < 0.25) and the scorer returns exactly 100. -/
theorem C7_witness :
    (FaceAdvanced.avg_ear FaceAdvanced.witnessLandmarks < 0.25 ∨
      FaceAdvanced.avg_brow_dist FaceAdvanced.witnessLandmarks < 20 ∨
      FaceAdvanced.mouthDownturn FaceAdvanced.witnessLandmarks > 2 ∨
      FaceAdvanced.mouthMar FaceAdvanced.witnessLandmarks < 0.3 ∨
      FaceAdvanced.jaw_variance FaceAdvanced.witnessLandmarks < 50) ∧
    FaceAdvanced.analyze_facial_features (some FaceAdvanced.witnessLandmarks) = 100 := by
  have hf : FaceAdvanced.avg_ear FaceAdvanced.witnessLandmarks < 0.25 ∨
      FaceAdvanced.avg_brow_dist FaceAdvanced.witnessLandmarks < 20 ∨
      FaceAdvanced.mouthDownturn FaceAdvanced.witnessLandmarks > 2 ∨
      FaceAdvanced.mouthMar FaceAdvanced.witnessLandmarks < 0.3 ∨
      FaceAdvanced.jaw_variance FaceAdvanced.witnessLandmarks < 50 :=
    Or.inl (by rw [FaceAdvanced.witness_avg_ear]; norm_num)
  exact ⟨hf, (C7_all_or_nothing FaceAdvanced.witnessLandmarks).2.2 hf⟩

/-! ### Band-table facts used for claim C3 -/

theorem adjustedScore_bounds (s f n : ℚ) (hs0 : 0 ≤ s) (hs1 : s ≤ 100)
    (hf0 : 0 ≤ f) (hn0 : 0 ≤ n) :
    0 ≤ Face.adjustedScore s f n ∧ Face.adjustedScore s f n ≤ 100 := by
  have h02 : (0 : ℚ) ≤ n * 0.2 := mul_nonneg hn0 (by norm_num)
  have h03 : (0 : ℚ) ≤ f * 0.3 := mul_nonneg hf0 (by norm_num)
  unfold Face.adjustedScore
  split_ifs with h1 h2 h3
  · exact ⟨le_min (by norm_num) (by linarith), min_le_left _ _⟩
  · exact ⟨le_min (by norm_num) (by linarith), min_le_left _ _⟩
  · exact ⟨le_min (by norm_num) (by linarith), min_le_left _ _⟩
  · constructor
    · show (0 : ℚ) ≤ s
      exact hs0
    · show s ≤ (100 : ℚ)
      exact hs1

theorem classifyLoop_face_cases (A s : ℚ) (h0 : 0 ≤ A) :
    (A < 40 → Face.classifyLoop Face.SADNESS_LEVELS A s = ("upset", A)) ∧
    (40 ≤ A → A < 70 → Face.classifyLoop Face.SADNESS_LEVELS A s = ("melancholic", A)) ∧
    (70 ≤ A → A < 100 → Face.classifyLoop Face.SADNESS_LEVELS A s = ("depressed", A)) ∧
    (100 ≤ A → Face.classifyLoop Face.SADNESS_LEVELS A s = ("upset", s)) := by
  refine ⟨?_, ?_, ?_, ?_⟩ <;> intros <;>
    simp only [Face.SADNESS_LEVELS, Face.classifyLoop]
  · rw [if_pos ⟨h0, by linarith⟩]
  · rw [if_neg (by rintro ⟨-, hx⟩; linarith), if_pos ⟨by linarith, by linarith⟩]
  · rw [if_neg (by rintro ⟨-, hx⟩; linarith), if_neg (by rintro ⟨-, hx⟩; linarith),
      if_pos ⟨by linarith, by linarith⟩]
  · rw [if_neg (by rintro ⟨-, hx⟩; linarith), if_neg (by rintro ⟨-, hx⟩; linarith),
      if_neg (by rintro ⟨-, hx⟩; linarith)]

/-- C3 (counterexample): at `(sad, fear, neutral) = (100, 0, 0)` the
adjusted score is exactly 100, which matches no half-open band (the top
band is `[70, 100)`), so `classify_sadness_level` falls through to the
default and returns the LOWEST band `"upset"`, not the top band: the three
ranges do not cover the point 100. -/
theorem C3_counterexample :
    Face.adjustedScore 100 0 0 = 100 ∧
    Face.classify_sadness_level 100 0 0 = ("upset", 100) ∧
    ¬((0 : ℚ) ≤ 100 ∧ (100 : ℚ) < 40) ∧ "upset" ≠ "depressed" := by
  refine ⟨by norm_num [Face.adjustedScore], ?_, by norm_num, by decide⟩
  norm_num [Face.classify_sadness_level, Face.adjustedScore, Face.classifyLoop,
    Face.SADNESS_LEVELS]

/-- C3 (amended): for inputs in `[0,100]` the classifier returns one of the
three levels; the three half-open band ranges partition `[0,100)` (not
`[0,100]`) in both tables; whenever the adjusted score is `< 100` the
selected band's range contains it (and the returned confidence is the
adjusted score), but an adjusted score of exactly 100 matches no band and
takes the defensive default, returning the LOWEST band
`("upset", sad_score)`. -/
theorem C3_amended :
    (∀ I : ℚ, 0 ≤ I → I < 100 →
      ∃! b, b ∈ Face.SADNESS_LEVELS ∧ b.2.1 ≤ I ∧ I < b.2.2) ∧
    (∀ I : ℝ, 0 ≤ I → I < 100 →
      ∃! b, b ∈ FaceAdvanced.SADNESS_LEVELS ∧ b.2.1 ≤ I ∧ I < b.2.2) ∧
    (∀ s f n : ℚ, 0 ≤ s → s ≤ 100 → 0 ≤ f → f ≤ 100 → 0 ≤ n → n ≤ 100 →
      (Face.classify_sadness_level s f n).1 ∈
        (["upset", "melancholic", "depressed"] : List String) ∧
      (Face.adjustedScore s f n < 100 →
        ∃ lo hi, ((Face.classify_sadness_level s f n).1, lo, hi) ∈ Face.SADNESS_LEVELS ∧
          lo ≤ Face.adjustedScore s f n ∧ Face.adjustedScore s f n < hi ∧
          (Face.classify_sadness_level s f n).2 = Face.adjustedScore s f n) ∧
      (Face.adjustedScore s f n = 100 →
        Face.classify_sadness_level s f n = ("upset", s))) := by
  refine ⟨?_, ?_, ?_⟩
  · intro I h0 h100
    rcases lt_or_le I 40 with h40 | h40
    · refine ⟨("upset", 0, 40), ⟨by simp [Face.SADNESS_LEVELS], h0, h40⟩, ?_⟩
      rintro b ⟨hb, hb1, hb2⟩
      simp only [Face.SADNESS_LEVELS, List.mem_cons, List.not_mem_nil, or_false] at hb
      rcases hb with h | h | h <;> subst h <;> simp_all <;> linarith
    · rcases lt_or_le I 70 with h70 | h70
      · refine ⟨("melancholic", 40, 70), ⟨by simp [Face.SADNESS_LEVELS], h40, h70⟩, ?_⟩
        rintro b ⟨hb, hb1, hb2⟩
        simp only [Face.SADNESS_LEVELS, List.mem_cons, List.not_mem_nil, or_false] at hb
        rcases hb with h | h | h <;> subst h <;> simp_all <;> linarith
      · refine ⟨("depressed", 70, 100), ⟨by simp [Face.SADNESS_LEVELS], h70, h100⟩, ?_⟩
        rintro b ⟨hb, hb1, hb2⟩
        simp only [Face.SADNESS_LEVELS, List.mem_cons, List.not_mem_nil, or_false] at hb
        rcases hb with h | h | h <;> subst h <;> simp_all <;> linarith
  · intro I h0 h100
    rcases lt_or_le I 35 with h35 | h35
    · refine ⟨("mild_upset", 0, 35), ⟨by simp [FaceAdvanced.SADNESS_LEVELS], h0, h35⟩, ?_⟩
      rintro b ⟨hb, hb1, hb2⟩
      simp only [FaceAdvanced.SADNESS_LEVELS, List.mem_cons, List.not_mem_nil, or_false] at hb
      rcases hb with h | h | h <;> subst h <;> simp_all <;> linarith
    · rcases lt_or_le I 65 with h65 | h65
      · refine ⟨("moderate_melancholic", 35, 65),
          ⟨by simp [FaceAdvanced.SADNESS_LEVELS], h35, h65⟩, ?_⟩
        rintro b ⟨hb, hb1, hb2⟩
        simp only [FaceAdvanced.SADNESS_LEVELS, List.mem_cons, List.not_mem_nil, or_false] at hb
        rcases hb with h | h | h <;> subst h <;> simp_all <;> linarith
      · refine ⟨("severe_depressed", 65, 100),
          ⟨by simp [FaceAdvanced.SADNESS_LEVELS], h65, h100⟩, ?_⟩
        rintro b ⟨hb, hb1, hb2⟩
        simp only [FaceAdvanced.SADNESS_LEVELS, List.mem_cons, List.not_mem_nil, or_false] at hb
        rcases hb with h | h | h <;> subst h <;> simp_all <;> linarith
  · intro s f n hs0 hs1 hf0 hf1 hn0 hn1
    obtain ⟨ha0, ha1⟩ := adjustedScore_bounds s f n hs0 hs1 hf0 hn0
    obtain ⟨hc1, hc2, hc3, hc4⟩ := classifyLoop_face_cases (Face.adjustedScore s f n) s ha0
    have hcl : Face.classify_sadness_level s f n =
        Face.classifyLoop Face.SADNESS_LEVELS (Face.adjustedScore s f n) s := rfl
    rcases lt_or_le (Face.adjustedScore s f n) 40 with h40 | h40
    · rw [hcl, hc1 h40]
      exact ⟨by simp, fun _ => ⟨0, 40, by simp [Face.SADNESS_LEVELS], ha0, h40, rfl⟩,
        fun h100 => absurd h100 (by intro h; rw [h] at h40; norm_num at h40)⟩
    · rcases lt_or_le (Face.adjustedScore s f n) 70 with h70 | h70
      · rw [hcl, hc2 h40 h70]
        exact ⟨by simp, fun _ => ⟨40, 70, by simp [Face.SADNESS_LEVELS], h40, h70, rfl⟩,
          fun h100 => absurd h100 (by intro h; rw [h] at h70; norm_num at h70)⟩
      · rcases lt_or_le (Face.adjustedScore s f n) 100 with h100 | h100
        · rw [hcl, hc3 h70 h100]
          exact ⟨by simp, fun _ => ⟨70, 100, by simp [Face.SADNESS_LEVELS], h70, h100, rfl⟩,
            fun he => absurd he (by intro h; rw [h] at h100; norm_num at h100)⟩
        · rw [hcl, hc4 h100]
          exact ⟨by simp, fun hlt => absurd hlt (by linarith),
            fun _ => rfl⟩

/-- C3 witness: the partition properties evaluated at intensity 50 and the
classifier correctness evaluated at `(sad, fear, neutral) = (10, 0, 0)`. -/
theorem C3_witness :
    ((0 : ℚ) ≤ 50 ∧ (50 : ℚ) < 100 ∧
      ∃! b, b ∈ Face.SADNESS_LEVELS ∧ b.2.1 ≤ (50 : ℚ) ∧ (50 : ℚ) < b.2.2) ∧
    ((0 : ℝ) ≤ 50 ∧ (50 : ℝ) < 100 ∧
      ∃! b, b ∈ FaceAdvanced.SADNESS_LEVELS ∧ b.2.1 ≤ (50 : ℝ) ∧ (50 : ℝ) < b.2.2) ∧
    (Face.classify_sadness_level 10 0 0).1 ∈
      (["upset", "melancholic", "depressed"] : List String) := by
  refine ⟨⟨by norm_num, by norm_num, C3_amended.1 50 (by norm_num) (by norm_num)⟩,
    ⟨by norm_num, by norm_num, C3_amended.2.1 50 (by norm_num) (by norm_num)⟩, ?_⟩
  exact (C3_amended.2.2 10 0 0 (by norm_num) (by norm_num) (by norm_num) (by norm_num)
    (by norm_num) (by norm_num)).1

/-- C8 (counterexample): a reachable window refuting the claim.  A sad
prediction with model intensity 0 and no landmarks (model output
`(0.6, 0.4, 0)`) yields the sample `("sad", 0, 60, 40)`; after recording it,
the flushed summary row contains a sad sample, yet its `sadness_intensity`
column is the literal `"N/A"`: Python's `f"{x:.2f}" if x else "N/A"` treats
the mean intensity `0.0` as falsy. -/
theorem C8_counterexample :
    (FaceAdvanced.recordTick (FaceAdvanced.predict_emotion (some ⟨0.6, 0.4, 0⟩) none)
        ⟨0, [], []⟩).sadData ≠ [] ∧
    (FaceAdvanced.maybe_flush 30
        (FaceAdvanced.recordTick (FaceAdvanced.predict_emotion (some ⟨0.6, 0.4, 0⟩) none)
          ⟨0, [], []⟩)).2.map FaceAdvanced.AdvRow.sadness_intensity =
      some CsvField.na := by
  have hpred : FaceAdvanced.predict_emotion (some ⟨0.6, 0.4, 0⟩) none =
      ("sad", 0, 60, 40) := by
    norm_num [FaceAdvanced.predict_emotion]
  have hrec : FaceAdvanced.recordTick (FaceAdvanced.predict_emotion (some ⟨0.6, 0.4, 0⟩) none)
      ⟨0, [], []⟩ =
      ⟨0, [⟨"sad", 0, 60, 40⟩], [(FaceAdvanced.classify_sadness_level 0, 0)]⟩ := by
    rw [hpred]
    simp [FaceAdvanced.recordTick]
  refine ⟨by rw [hrec]; simp, ?_⟩
  rw [hrec]
  have hflush : FaceAdvanced.maybe_flush 30
      ⟨0, [⟨"sad", 0, 60, 40⟩], [(FaceAdvanced.classify_sadness_level 0, 0)]⟩ =
      (⟨30, [], []⟩, some (FaceAdvanced.mkWindowRow [⟨"sad", 0, 60, 40⟩]
        [(FaceAdvanced.classify_sadness_level 0, 0)])) := by
    rw [FaceAdvanced.maybe_flush, if_pos]
    constructor
    · norm_num [FaceAdvanced.AGGREGATION_WINDOW]
    · simp
  rw [hflush]
  simp only [Option.map_some]
  simp [FaceAdvanced.mkWindowRow, FaceAdvanced.meanIntensity]

/-- C8 (amended): in the emitted summary row, `sadness_level` is `"N/A"`
exactly when the window holds no sad samples; when sad samples are present,
`sadness_level` is written as the majority level — the first label attaining
the maximal count in the insertion-ordered level counts (argmax by count,
ties broken by first-seen order) — and `sadness_intensity` is written as the
formatted arithmetic mean of the recorded intensities EXCEPT when that mean
is exactly 0: Python's `f"{x:.2f}" if x else "N/A"` treats the float `0.0`
as falsy, so a window that does contain sad samples can still write `"N/A"`
for the intensity column.  This holds for the row builders of both
pipelines. -/
theorem C8_amended :
    (∀ (emotions : List Face.FaceSample) (sadData : List (String × ℚ)),
      sadData = [] →
        (Face.mkWindowRow emotions sadData).sadness_level = "N/A" ∧
        (Face.mkWindowRow emotions sadData).sadness_intensity = CsvField.na) ∧
    (∀ (emotions : List Face.FaceSample) (q : String × ℚ) (qs : List (String × ℚ)),
      (∀ p ∈ q :: qs, p.1 ∈ (["upset", "melancholic", "depressed"] : List String)) →
      ∃ lvl cnt n,
        (Face.mkWindowRow emotions (q :: qs)).sadness_level = lvl ∧
        lvl ≠ "N/A" ∧
        (countsOf ((q :: qs).map (·.1))).get? n = some (lvl, cnt) ∧
        (∀ p ∈ countsOf ((q :: qs).map (·.1)), p.2 ≤ cnt) ∧
        (∀ m, m < n → ∀ p, (countsOf ((q :: qs).map (·.1))).get? m = some p → p.2 < cnt) ∧
        (Face.mkWindowRow emotions (q :: qs)).sadness_intensity =
          (if Face.meanIntensity (q :: qs) = 0 then CsvField.na
            else CsvField.formatted (Face.meanIntensity (q :: qs)))) ∧
    (∀ (emotions : List FaceAdvanced.AdvSample) (sadData : List (String × ℝ)),
      sadData = [] →
        (FaceAdvanced.mkWindowRow emotions sadData).sadness_level = "N/A" ∧
        (FaceAdvanced.mkWindowRow emotions sadData).sadness_intensity = CsvField.na) ∧
    (∀ (emotions : List FaceAdvanced.AdvSample) (q : String × ℝ) (qs : List (String × ℝ)),
      (∀ p ∈ q :: qs, p.1 ∈ (["upset", "melancholic", "depressed"] : List String)) →
      ∃ lvl cnt n,
        (FaceAdvanced.mkWindowRow emotions (q :: qs)).sadness_level = lvl ∧
        lvl ≠ "N/A" ∧
        (countsOf ((q :: qs).map (·.1))).get? n = some (lvl, cnt) ∧
        (∀ p ∈ countsOf ((q :: qs).map (·.1)), p.2 ≤ cnt) ∧
        (∀ m, m < n → ∀ p, (countsOf ((q :: qs).map (·.1))).get? m = some p → p.2 < cnt) ∧
        (FaceAdvanced.mkWindowRow emotions (q :: qs)).sadness_intensity =
          (if FaceAdvanced.meanIntensity (q :: qs) = 0 then CsvField.na
            else CsvField.formatted (FaceAdvanced.meanIntensity (q :: qs)))) := by
  refine ⟨?_, ?_, ?_, ?_⟩
  · intro emotions sadData h
    subst h
    constructor <;> simp [Face.mkWindowRow]
  · intro emotions q qs hlv
    have hcne : countsOf (q.1 :: qs.map (·.1)) ≠ [] :=
      countsOf_ne_nil _ (by simp)
    obtain ⟨c, cs, hc⟩ := List.exists_cons_of_ne_nil hcne
    obtain ⟨n, hget, hmax, hbefore⟩ := pyMaxAux_spec c cs
    have hmem : pyMaxAux c cs ∈ countsOf (q.1 :: qs.map (·.1)) := by
      rw [hc]
      exact pyMaxAux_mem c cs
    have hkey := mem_countsOf_key _ _ hmem
    have hkey' : (pyMaxAux c cs).1 ∈ (q :: qs).map (·.1) := by simpa using hkey
    obtain ⟨p, hp, hpe⟩ := List.mem_map.mp hkey'
    have hl3 : (pyMaxAux c cs).1 ∈ (["upset", "melancholic", "depressed"] : List String) :=
      hpe ▸ hlv p hp
    have hlne : ¬((pyMaxAux c cs).1 = "") := by
      simp only [List.mem_cons, List.not_mem_nil, or_false] at hl3
      rcases hl3 with h | h | h <;> simp [h]
    have hlna : ¬((pyMaxAux c cs).1 = "N/A") := by
      simp only [List.mem_cons, List.not_mem_nil, or_false] at hl3
      rcases hl3 with h | h | h <;> simp [h]
    refine ⟨(pyMaxAux c cs).1, (pyMaxAux c cs).2, n, ?_, hlna, ?_, ?_, ?_, ?_⟩
    · simp [Face.mkWindowRow, hc, pyMaxOpt, hlne]
    · simp only [List.map_cons, hc, Prod.mk.eta]
      exact hget
    · simp only [List.map_cons, hc]
      exact hmax
    · simp only [List.map_cons, hc]
      exact hbefore
    · simp [Face.mkWindowRow]
  · intro emotions sadData h
    subst h
    constructor <;> simp [FaceAdvanced.mkWindowRow]
  · intro emotions q qs hlv
    have hcne : countsOf (q.1 :: qs.map (·.1)) ≠ [] :=
      countsOf_ne_nil _ (by simp)
    obtain ⟨c, cs, hc⟩ := List.exists_cons_of_ne_nil hcne
    obtain ⟨n, hget, hmax, hbefore⟩ := pyMaxAux_spec c cs
    have hmem : pyMaxAux c cs ∈ countsOf (q.1 :: qs.map (·.1)) := by
      rw [hc]
      exact pyMaxAux_mem c cs
    have hkey := mem_countsOf_key _ _ hmem
    have hkey' : (pyMaxAux c cs).1 ∈ (q :: qs).map (·.1) := by simpa using hkey
    obtain ⟨p, hp, hpe⟩ := List.mem_map.mp hkey'
    have hl3 : (pyMaxAux c cs).1 ∈ (["upset", "melancholic", "depressed"] : List String) :=
      hpe ▸ hlv p hp
    have hlne : ¬((pyMaxAux c cs).1 = "") := by
      simp only [List.mem_cons, List.not_mem_nil, or_false] at hl3
      rcases hl3 with h | h | h <;> simp [h]
    have hlna : ¬((pyMaxAux c cs).1 = "N/A") := by
      simp only [List.mem_cons, List.not_mem_nil, or_false] at hl3
      rcases hl3 with h | h | h <;> simp [h]
    refine ⟨(pyMaxAux c cs).1, (pyMaxAux c cs).2, n, ?_, hlna, ?_, ?_, ?_, ?_⟩
    · simp [FaceAdvanced.mkWindowRow, hc, pyMaxOpt, hlne]
    · simp only [List.map_cons, hc, Prod.mk.eta]
      exact hget
    · simp only [List.map_cons, hc]
      exact hmax
    · simp only [List.map_cons, hc]
      exact hbefore
    · simp [FaceAdvanced.mkWindowRow]

/-- C8 witness: the amended statement evaluated on windows with the single
sad sample `("upset", 5)` in each pipeline, together with the concrete
column values: the level column is the majority level `"upset"` and the
intensity column is the formatted mean `5` (not `"N/A"`). -/
theorem C8_witness :
    (∃ lvl cnt n,
      (Face.mkWindowRow [] [("upset", (5 : ℚ))]).sadness_level = lvl ∧
      lvl ≠ "N/A" ∧
      (countsOf (([("upset", (5 : ℚ))]).map (·.1))).get? n = some (lvl, cnt) ∧
      (∀ p ∈ countsOf (([("upset", (5 : ℚ))]).map (·.1)), p.2 ≤ cnt) ∧
      (∀ m, m < n →
        ∀ p, (countsOf (([("upset", (5 : ℚ))]).map (·.1))).get? m = some p → p.2 < cnt) ∧
      (Face.mkWindowRow [] [("upset", (5 : ℚ))]).sadness_intensity =
        (if Face.meanIntensity [("upset", (5 : ℚ))] = 0 then CsvField.na
          else CsvField.formatted (Face.meanIntensity [("upset", (5 : ℚ))]))) ∧
    (∃ lvl cnt n,
      (FaceAdvanced.mkWindowRow [] [("upset", (5 : ℝ))]).sadness_level = lvl ∧
      lvl ≠ "N/A" ∧
      (countsOf (([("upset", (5 : ℝ))]).map (·.1))).get? n = some (lvl, cnt) ∧
      (∀ p ∈ countsOf (([("upset", (5 : ℝ))]).map (·.1)), p.2 ≤ cnt) ∧
      (∀ m, m < n →
        ∀ p, (countsOf (([("upset", (5 : ℝ))]).map (·.1))).get? m = some p → p.2 < cnt) ∧
      (FaceAdvanced.mkWindowRow [] [("upset", (5 : ℝ))]).sadness_intensity =
        (if FaceAdvanced.meanIntensity [("upset", (5 : ℝ))] = 0 then CsvField.na
          else CsvField.formatted (FaceAdvanced.meanIntensity [("upset", (5 : ℝ))]))) ∧
    (Face.mkWindowRow [] [("upset", (5 : ℚ))]).sadness_level = "upset" ∧
    (Face.mkWindowRow [] [("upset", (5 : ℚ))]).sadness_intensity = CsvField.formatted 5 ∧
    (FaceAdvanced.mkWindowRow [] [("upset", (5 : ℝ))]).sadness_level = "upset" ∧
    (FaceAdvanced.mkWindowRow [] [("upset", (5 : ℝ))]).sadness_intensity =
      CsvField.formatted 5 := by
  refine ⟨C8_amended.2.1 [] ("upset", 5) [] ?_, C8_amended.2.2.2 [] ("upset", 5) [] ?_,
    ?_, ?_, ?_, ?_⟩
  · intro p hp
    simp only [List.mem_singleton] at hp
    simp [hp]
  · intro p hp
    simp only [List.mem_singleton] at hp
    simp [hp]
  · norm_num [Face.mkWindowRow, countsOf, bumpCount, pyMaxOpt, pyMaxAux]
    decide
  · norm_num [Face.mkWindowRow, Face.meanIntensity, countsOf, bumpCount, pyMaxOpt, pyMaxAux]
  · norm_num [FaceAdvanced.mkWindowRow, countsOf, bumpCount, pyMaxOpt, pyMaxAux]
    decide
  · norm_num [FaceAdvanced.mkWindowRow, FaceAdvanced.meanIntensity, countsOf, bumpCount,
      pyMaxOpt, pyMaxAux]

/-- C9: `get_dominant_emotion` on the 7-class score dict built by
`predict_emotion_custom` returns the display-mapped argmax over the scores,
with ties broken by the first-encountered label in the fixed order
(angry, disgust, fear, happy, sad, surprise, neutral): the selected index
`i` has a maximal score and every earlier index has a strictly smaller
score, so the result is deterministic for equal-score inputs. -/
theorem C9_dominant_first_argmax (v : Fin 7 → ℚ) :
    ∃ i : Fin 7,
      Face.get_dominant_emotion (Face.predict_emotion_custom v) =
        some (Face.emotionMapGet (Face.emotionAt i), Face.predict_emotion_custom v) ∧
      (∀ j, v j ≤ v i) ∧ (∀ j : Fin 7, j.val < i.val → v j < v i) := by
  have h7 : List.finRange 7 = [0, 1, 2, 3, 4, 5, 6] := by decide
  have hsc : Face.predict_emotion_custom v =
      (Face.emotionAt 0, v 0 * 100) ::
        [(Face.emotionAt 1, v 1 * 100), (Face.emotionAt 2, v 2 * 100),
         (Face.emotionAt 3, v 3 * 100), (Face.emotionAt 4, v 4 * 100),
         (Face.emotionAt 5, v 5 * 100), (Face.emotionAt 6, v 6 * 100)] := by
    rw [Face.predict_emotion_custom, h7]
    rfl
  obtain ⟨n, hget, hmax, hbefore⟩ := pyMaxAux_spec (Face.emotionAt 0, v 0 * 100)
    [(Face.emotionAt 1, v 1 * 100), (Face.emotionAt 2, v 2 * 100),
     (Face.emotionAt 3, v 3 * 100), (Face.emotionAt 4, v 4 * 100),
     (Face.emotionAt 5, v 5 * 100), (Face.emotionAt 6, v 6 * 100)]
  have hmem7 : ∀ j : Fin 7, (Face.emotionAt j, v j * 100) ∈
      (Face.emotionAt 0, v 0 * 100) ::
        [(Face.emotionAt 1, v 1 * 100), (Face.emotionAt 2, v 2 * 100),
         (Face.emotionAt 3, v 3 * 100), (Face.emotionAt 4, v 4 * 100),
         (Face.emotionAt 5, v 5 * 100), (Face.emotionAt 6, v 6 * 100)] := by
    intro j
    fin_cases j <;> simp
  have hmax' := fun j : Fin 7 => hmax _ (hmem7 j)
  have hget7 : ∀ m : Fin 7,
      ((Face.emotionAt 0, v 0 * 100) ::
        [(Face.emotionAt 1, v 1 * 100), (Face.emotionAt 2, v 2 * 100),
         (Face.emotionAt 3, v 3 * 100), (Face.emotionAt 4, v 4 * 100),
         (Face.emotionAt 5, v 5 * 100), (Face.emotionAt 6, v 6 * 100)]).get? m.val =
      some (Face.emotionAt m, v m * 100) := by
    intro m
    fin_cases m <;> rfl
  have hbefore' : ∀ m : Fin 7, m.val < n → v m * 100 <
      (pyMaxAux (Face.emotionAt 0, v 0 * 100)
        [(Face.emotionAt 1, v 1 * 100), (Face.emotionAt 2, v 2 * 100),
         (Face.emotionAt 3, v 3 * 100), (Face.emotionAt 4, v 4 * 100),
         (Face.emotionAt 5, v 5 * 100), (Face.emotionAt 6, v 6 * 100)]).2 :=
    fun m hm => hbefore m.val hm _ (hget7 m)
  have hn : n < 7 := by
    by_contra hge
    push_neg at hge
    rw [List.get?_eq_none.mpr (by simpa using hge)] at hget
    exact Option.noConfusion hget
  interval_cases n
  · have hpm := (Option.some.inj hget).symm
    refine ⟨0, ?_, ?_, ?_⟩
    · rw [hsc]
      simp only [Face.get_dominant_emotion]
      rw [hpm]
    · intro j
      have h := hmax' j
      rw [hpm] at h
      have h2 : v j * 100 ≤ v 0 * 100 := by simpa using h
      linarith
    · intro j hj
      exact absurd (show j.val < 0 from hj) (by omega)
  · have hpm := (Option.some.inj hget).symm
    refine ⟨1, ?_, ?_, ?_⟩
    · rw [hsc]
      simp only [Face.get_dominant_emotion]
      rw [hpm]
    · intro j
      have h := hmax' j
      rw [hpm] at h
      have h2 : v j * 100 ≤ v 1 * 100 := by simpa using h
      linarith
    · intro j hj
      have h := hbefore' j (show j.val < 1 from hj)
      rw [hpm] at h
      have h2 : v j * 100 < v 1 * 100 := by simpa using h
      linarith
  · have hpm := (Option.some.inj hget).symm
    refine ⟨2, ?_, ?_, ?_⟩
    · rw [hsc]
      simp only [Face.get_dominant_emotion]
      rw [hpm]
    · intro j
      have h := hmax' j
      rw [hpm] at h
      have h2 : v j * 100 ≤ v 2 * 100 := by simpa using h
      linarith
    · intro j hj
      have h := hbefore' j (show j.val < 2 from hj)
      rw [hpm] at h
      have h2 : v j * 100 < v 2 * 100 := by simpa using h
      linarith
  · have hpm := (Option.some.inj hget).symm
    refine ⟨3, ?_, ?_, ?_⟩
    · rw [hsc]
      simp only [Face.get_dominant_emotion]
      rw [hpm]
    · intro j
      have h := hmax' j
      rw [hpm] at h
      have h2 : v j * 100 ≤ v 3 * 100 := by simpa using h
      linarith
    · intro j hj
      have h := hbefore' j (show j.val < 3 from hj)
      rw [hpm] at h
      have h2 : v j * 100 < v 3 * 100 := by simpa using h
      linarith
  · have hpm := (Option.some.inj hget).symm
    refine ⟨4, ?_, ?_, ?_⟩
    · rw [hsc]
      simp only [Face.get_dominant_emotion]
      rw [hpm]
    · intro j
      have h := hmax' j
      rw [hpm] at h
      have h2 : v j * 100 ≤ v 4 * 100 := by simpa using h
      linarith
    · intro j hj
      have h := hbefore' j (show j.val < 4 from hj)
      rw [hpm] at h
      have h2 : v j * 100 < v 4 * 100 := by simpa using h
      linarith
  · have hpm := (Option.some.inj hget).symm
    refine ⟨5, ?_, ?_, ?_⟩
    · rw [hsc]
      simp only [Face.get_dominant_emotion]
      rw [hpm]
    · intro j
      have h := hmax' j
      rw [hpm] at h
      have h2 : v j * 100 ≤ v 5 * 100 := by simpa using h
      linarith
    · intro j hj
      have h := hbefore' j (show j.val < 5 from hj)
      rw [hpm] at h
      have h2 : v j * 100 < v 5 * 100 := by simpa using h
      linarith
  · have hpm := (Option.some.inj hget).symm
    refine ⟨6, ?_, ?_, ?_⟩
    · rw [hsc]
      simp only [Face.get_dominant_emotion]
      rw [hpm]
    · intro j
      have h := hmax' j
      rw [hpm] at h
      have h2 : v j * 100 ≤ v 6 * 100 := by simpa using h
      linarith
    · intro j hj
      have h := hbefore' j (show j.val < 6 from hj)
      rw [hpm] at h
      have h2 : v j * 100 < v 6 * 100 := by simpa using h
      linarith

/-- C9 witness: on the all-equal score vector the dominant index exists (it
is the first label, `"angry"`, by the tie-break). -/
theorem C9_witness :
    ∃ i : Fin 7,
      Face.get_dominant_emotion (Face.predict_emotion_custom fun _ => 10) =
        some (Face.emotionMapGet (Face.emotionAt i),
          Face.predict_emotion_custom fun _ => 10) ∧
      (∀ j, (fun _ : Fin 7 => (10 : ℚ)) j ≤ (fun _ : Fin 7 => (10 : ℚ)) i) ∧
      (∀ j : Fin 7, j.val < i.val →
        (fun _ : Fin 7 => (10 : ℚ)) j < (fun _ : Fin 7 => (10 : ℚ)) i) :=
  C9_dominant_first_argmax (fun _ => 10)
